import Mathlib

/-!
Shallow embedding of the Warbler application core (src/app.py and the data
model it manipulates) and proofs of its specified properties.

The database is modelled as explicit state: lists of user rows, message
rows, follow edges (follower_id, followed_id) and like edges
(user_id, message_id).  Each Flask route of app.py becomes a Lean function
from the database state, the session identity, and the request data to a
reply (accumulated flash messages, the HTTP-level response, the resulting
database state).  An uncaught Python exception is modelled by the
Response.fatal constructor; a handled 404 abort by Response.notFound.
-/

namespace Warbler

/-- A row of the users table (models.py User: unique username and email,
bcrypt digest stored in password, optional display fields). -/
structure User where
  id : Nat
  username : String
  email : String
  password : String
  image_url : String
  header_image_url : String
  bio : String
  location : String
deriving DecidableEq, Repr

/-- A row of the messages table (models.py Message: text, timestamp,
owning user_id). Timestamps are modelled as naturals. -/
structure Message where
  id : Nat
  text : String
  timestamp : Nat
  user_id : Nat
deriving DecidableEq, Repr

/-- The persisted relational state: users, messages, the follows table as
ordered pairs (follower_id, followed_id) and the likes table as pairs
(user_id, message_id).  Lists, not sets: app.py appends to relationship
collections, so duplicates are representable. -/
structure DBState where
  users : List User
  messages : List Message
  follows : List (Nat × Nat)
  likes : List (Nat × Nat)
deriving DecidableEq, Repr

/-- The HTTP-level outcome of a route: a redirect, a rendered template, a
handled 404 abort, or an uncaught Python exception (process-level fault). -/
inductive Response where
  | redirect (loc : String)
  | render (tmpl : String)
  | notFound
  | fatal (err : String)
deriving DecidableEq, Repr

/-- What a route produces: flash messages in order of emission (category,
text), the response, and the database state after the request. -/
structure Reply where
  flashes : List (String × String)
  resp : Response
  db : DBState
deriving DecidableEq, Repr

/-- app.py add_user_to_g: g.user is User.query.get(session[CURR_USER_KEY])
when a session identity is present (None when that id matches no row), and
None for an anonymous request. -/
def g_user (st : DBState) (sess : Option Nat) : Option User :=
  match sess with
  | none => none
  | some uid => st.users.find? (fun u => u.id = uid)

/-- app.py do_authorize: when g.user is absent it flashes
"Access unauthorized." and RETURNS a redirect; the returned value is what
the callers in app.py discard. -/
def do_authorize (gu : Option User) : List (String × String) × Option Response :=
  match gu with
  | none => ([("danger", "Access unauthorized.")], some (Response.redirect "/"))
  | some _ => ([], none)

/-- Modelled from the spec: the verify half of the Credential Store
(bcrypt check_password_hash, an external collaborator whose internals are
out of scope) is passed in as a boolean function from plaintext and digest. -/
def Verify : Type := String → String → Bool

/-- Modelled from the spec: User.authenticate of models.py, which is not
under src/.  Looks up by exact username; absent gives None; present calls
verify and gives the User on success, None on failure; never raises. -/
def authenticate (vf : Verify) (users : List User) (username password : String) :
    Option User :=
  match users.find? (fun u => u.username = username) with
  | none => none
  | some u => if vf password u.password then some u else none

/-- Modelled from the spec: the uniqueness constraints on username and
email in the users table of models.py (not under src/); committing a row
that duplicates either raises IntegrityError, and the failed transaction
persists nothing. -/
def commit_new_user (st : DBState) (u : User) : Except Unit DBState :=
  if st.users.any (fun v => v.username = u.username || v.email = u.email) then
    Except.error ()
  else
    Except.ok { st with users := st.users ++ [u] }

/-- app.py signup, the validated-submission path: the new User row staged
by User.signup is committed; IntegrityError is caught, flashes
"Username already taken" and re-renders the signup form with the database
unchanged; success redirects home.  (Session bookkeeping do_logout and
do_login belongs to the external web layer and carries no database state.) -/
def signup_route (st : DBState) (u : User) : Reply :=
  match commit_new_user st u with
  | Except.error _ => ⟨[("danger", "Username already taken")], Response.render "users/signup.html", st⟩
  | Except.ok st2 => ⟨[], Response.redirect "/", st2⟩

/-- app.py add_follow: do_authorize is called and its returned redirect
discarded; the followed user is fetched with get_or_404; then
g.user.following.append(followed_user) runs — an AttributeError when
g.user is None — followed by a commit, appending the edge unconditionally. -/
def add_follow (st : DBState) (sess : Option Nat) (follow_id : Nat) : Reply :=
  let az := do_authorize (g_user st sess)
  match st.users.find? (fun u => u.id = follow_id) with
  | none => ⟨az.1, Response.notFound, st⟩
  | some followed =>
    match g_user st sess with
    | none => ⟨az.1, Response.fatal "AttributeError", st⟩
    | some gu =>
      ⟨az.1 ++ [("success", "User followed")],
       Response.redirect ("/users/" ++ toString gu.id ++ "/following"),
       { st with follows := st.follows ++ [(gu.id, followed.id)] }⟩

/-- Python list.remove: drops the first occurrence of x. -/
def removeFirst (l : List (Nat × Nat)) (x : Nat × Nat) : List (Nat × Nat) :=
  match l with
  | [] => []
  | y :: ys => if y = x then ys else y :: removeFirst ys x

/-- app.py stop_following: do_authorize discarded; the target is fetched
with plain get (None when absent); then g.user.following.remove(target) —
AttributeError when g.user is None, ValueError when the target is None or
not currently followed (Python list.remove semantics) — then commit. -/
def stop_following (st : DBState) (sess : Option Nat) (follow_id : Nat) : Reply :=
  let az := do_authorize (g_user st sess)
  let followed := st.users.find? (fun u => u.id = follow_id)
  match g_user st sess with
  | none => ⟨az.1, Response.fatal "AttributeError", st⟩
  | some gu =>
    match followed with
    | none => ⟨az.1, Response.fatal "ValueError", st⟩
    | some target =>
      if (gu.id, target.id) ∈ st.follows then
        ⟨az.1 ++ [("danger", "User unfollowed")],
         Response.redirect ("/users/" ++ toString gu.id ++ "/following"),
         { st with follows := removeFirst st.follows (gu.id, target.id) }⟩
      else
        ⟨az.1, Response.fatal "ValueError", st⟩

/-- app.py like_message: do_authorize discarded; message fetched with
get_or_404; comparing like_msg.user_id with g.user.id raises
AttributeError when g.user is None; liking an own message flashes and
redirects with no edge change; otherwise toggles — rebuilding
g.user.likes without the message when present (removing every copy of the
edge), appending the edge when absent — and commits. -/
def like_message (st : DBState) (sess : Option Nat) (msg_id : Nat) : Reply :=
  let az := do_authorize (g_user st sess)
  match st.messages.find? (fun x => x.id = msg_id) with
  | none => ⟨az.1, Response.notFound, st⟩
  | some m =>
    match g_user st sess with
    | none => ⟨az.1, Response.fatal "AttributeError", st⟩
    | some gu =>
      if m.user_id = gu.id then
        ⟨az.1 ++ [("danger", "you cannot like your own messages")],
         Response.redirect ("/users/" ++ toString gu.id), st⟩
      else if (gu.id, m.id) ∈ st.likes then
        ⟨az.1 ++ [("danger", "message unliked!")], Response.redirect "/",
         { st with likes := st.likes.filter (fun e => e ≠ (gu.id, m.id)) }⟩
      else
        ⟨az.1 ++ [("success", "message liked!")], Response.redirect "/",
         { st with likes := st.likes ++ [(gu.id, m.id)] }⟩

/-- app.py messages_add: do_authorize discarded; on a validated submission
a Message built from the form text is appended to g.user.messages —
AttributeError when g.user is None — and committed (the database assigns
the new id and timestamp, passed here explicitly); otherwise the form is
rendered. -/
def messages_add (st : DBState) (sess : Option Nat) (form_valid : Bool)
    (text : String) (new_id now : Nat) : Reply :=
  let az := do_authorize (g_user st sess)
  if form_valid then
    match g_user st sess with
    | none => ⟨az.1, Response.fatal "AttributeError", st⟩
    | some gu =>
      ⟨az.1, Response.redirect ("/users/" ++ toString gu.id),
       { st with messages := st.messages ++ [⟨new_id, text, now, gu.id⟩] }⟩
  else
    ⟨az.1, Response.render "messages/new.html", st⟩

/-- app.py messages_destroy: do_authorize discarded; message fetched with
get_or_404; comparing msg.user_id with g.user.id raises AttributeError
when g.user is None; a non-owner is rejected with a flash and redirect;
the owner deletes the row and commits. -/
def messages_destroy (st : DBState) (sess : Option Nat) (message_id : Nat) : Reply :=
  let az := do_authorize (g_user st sess)
  match st.messages.find? (fun x => x.id = message_id) with
  | none => ⟨az.1, Response.notFound, st⟩
  | some m =>
    match g_user st sess with
    | none => ⟨az.1, Response.fatal "AttributeError", st⟩
    | some gu =>
      if m.user_id ≠ gu.id then
        ⟨az.1 ++ [("danger", "Access unauthorized.")], Response.redirect "/", st⟩
      else
        ⟨az.1, Response.redirect ("/users/" ++ toString gu.id),
         { st with messages := st.messages.filter (fun x => x.id ≠ m.id) }⟩

/-- The fields of the EditUserForm submission in app.py profile. -/
structure EditForm where
  username : String
  email : String
  image_url : String
  header_image_url : String
  bio : String
  location : String
  password : String
deriving DecidableEq, Repr

/-- The field assignments of app.py profile: the six profile fields of the
fetched row are overwritten from the form. -/
def updateUser (u : User) (f : EditForm) : User :=
  { u with
    username := f.username
    email := f.email
    image_url := f.image_url
    header_image_url := f.header_image_url
    bio := f.bio
    location := f.location }

/-- app.py profile: do_authorize discarded; User.query.get_or_404(g.user.id)
raises AttributeError when g.user is None; on a validated submission the
form password is re-authenticated against g.user.username; success
overwrites the six profile fields of that row, commits and redirects;
failure flashes "You are unauthorized" and falls through to re-render the
edit form with the database unchanged. -/
def profile_route (vf : Verify) (st : DBState) (sess : Option Nat)
    (form_valid : Bool) (f : EditForm) : Reply :=
  let az := do_authorize (g_user st sess)
  match g_user st sess with
  | none => ⟨az.1, Response.fatal "AttributeError", st⟩
  | some gu =>
    match st.users.find? (fun u => u.id = gu.id) with
    | none => ⟨az.1, Response.notFound, st⟩
    | some prof =>
      if form_valid then
        if (authenticate vf st.users gu.username f.password).isSome then
          ⟨az.1 ++ [("success", "Profile edited")],
           Response.redirect ("/users/" ++ toString gu.id),
           { st with users := st.users.map (fun u => if u.id = prof.id then updateUser u f else u) }⟩
        else
          ⟨az.1 ++ [("danger", "You are unauthorized")], Response.render "/users/edit.html", st⟩
      else
        ⟨az.1, Response.render "/users/edit.html", st⟩

/-- The descending-timestamp order of the home timeline query
(order_by Message.timestamp.desc()). -/
def tsDesc (a b : Message) : Prop := b.timestamp ≤ a.timestamp

instance : DecidableRel tsDesc := fun a b => Nat.decLe b.timestamp a.timestamp

instance : IsTotal Message tsDesc :=
  ⟨fun a b => Nat.le_total b.timestamp a.timestamp⟩

instance : IsTrans Message tsDesc :=
  ⟨fun _ _ _ hab hbc => Nat.le_trans hbc hab⟩

/-- app.py homepage line 357: the candidate author ids, the ids the viewer
follows plus the viewer. -/
def followingIds (st : DBState) (uid : Nat) : List Nat :=
  (st.follows.filter (fun e => e.1 = uid)).map (fun e => e.2) ++ [uid]

/-- app.py homepage: an identified viewer gets the messages authored by
the candidate ids, ordered by timestamp descending, limited to 100; an
anonymous viewer gets no timeline (home-anon is rendered instead). -/
def homepage (st : DBState) (sess : Option Nat) : Option (List Message) :=
  match g_user st sess with
  | some gu =>
    some (((st.messages.filter (fun m => m.user_id ∈ followingIds st gu.id)).insertionSort
        tsDesc).take 100)
  | none => none

/-- Modelled from the spec: the is_following relationship query of
models.py (not under src/), a pure membership test on the follows table. -/
def is_following (st : DBState) (a b : Nat) : Bool := decide ((a, b) ∈ st.follows)

/-! Concrete rows and states used by witnesses and counterexamples. -/

/-- A user row with defaulted display fields. -/
def mkUser (i : Nat) (un em pw : String) : User := ⟨i, un, em, pw, "", "", "", ""⟩

def uAlice : User := mkUser 1 "alice" "alice@mail" "digest-a"

def uBob : User := mkUser 2 "bob" "bob@mail" "digest-b"

def mHello : Message := ⟨10, "hello", 5, 2⟩

def mLater : Message := ⟨11, "later", 9, 1⟩

def mOther : Message := ⟨12, "other", 7, 3⟩

/-- alice follows bob; bob has posted mHello, alice mLater, a stranger mOther. -/
def stBase : DBState := ⟨[uAlice, uBob], [mHello, mLater, mOther], [(1, 2)], []⟩

/-- No follow edges at all. -/
def stNoFollow : DBState := ⟨[uAlice, uBob], [mHello], [], []⟩

/-- A duplicated follow edge (reachable by repeated add_follow). -/
def stDupFollow : DBState := ⟨[uAlice, uBob], [], [(1, 2), (1, 2)], []⟩

/-- Only alice, no edges: the self-follow scenario. -/
def stSolo : DBState := ⟨[uAlice], [], [], []⟩

/-- Concrete verify function for witnesses: the digest is the plaintext
with a marker appended. -/
def vfDemo : Verify := fun p d => d = p ++ "#h"

/-- alice with a vfDemo-compatible digest. -/
def uAliceH : User := mkUser 1 "alice" "alice@mail" "pw1#h"

def stAuth : DBState := ⟨[uAliceH, uBob], [], [], []⟩

/-- An edit-form submission used by the profile witnesses. -/
def fEdit (pw : String) : EditForm := ⟨"alice2", "a2@mail", "i", "h", "b", "l", pw⟩

/-- A signup row reusing the email of uAliceH. -/
def uDupEmail : User := mkUser 9 "carol" "alice@mail" "digest-c"

/-! Helper lemmas shared by the claim proofs. -/

/-- Python list.remove drops one occurrence: when the count was at most
one, the element is gone afterwards. -/
theorem not_mem_removeFirst (l : List (Nat × Nat)) (x : Nat × Nat)
    (h : l.count x ≤ 1) : x ∉ removeFirst l x := by
  induction l with
  | nil => simp [removeFirst]
  | cons y ys ih =>
    by_cases hyx : y = x
    · subst hyx
      rw [List.count_cons_self] at h
      have h0 : ys.count y = 0 := Nat.le_zero.mp (Nat.le_of_succ_le_succ h)
      simpa [removeFirst] using List.count_eq_zero.mp h0
    · have hxy : x ≠ y := fun e => hyx e.symm
      rw [List.count_cons_of_ne hxy] at h
      simp only [removeFirst, if_neg hyx, List.mem_cons]
      rintro (rfl | hmem)
      · exact hxy rfl
      · exact ih h hmem

/-- The list-comprehension removal of app.py like_message drops every copy
of the edge. -/
theorem not_mem_filter_ne (l : List (Nat × Nat)) (x : Nat × Nat) :
    x ∉ l.filter (fun e => e ≠ x) := by
  intro hx
  have := List.of_mem_filter hx
  simp at this

/-- Count form of the previous lemma. -/
theorem count_filter_ne (l : List (Nat × Nat)) (x : Nat × Nat) :
    (l.filter (fun e => e ≠ x)).count x = 0 :=
  List.count_eq_zero.mpr (not_mem_filter_ne l x)

/-- The candidate author ids of the homepage query are exactly the ids the
viewer follows plus the viewer. -/
theorem mem_followingIds (st : DBState) (uid x : Nat) :
    x ∈ followingIds st uid ↔ (uid, x) ∈ st.follows ∨ x = uid := by
  simp only [followingIds, List.mem_append, List.mem_map, List.mem_filter,
    List.mem_singleton, decide_eq_true_eq]
  constructor
  · rintro (⟨e, ⟨he, h1⟩, h2⟩ | h)
    · left
      have he2 : (uid, x) = e := by
        cases e
        simp_all
      rwa [he2]
    · exact Or.inr h
  · rintro (h | h)
    · exact Or.inl ⟨(uid, x), ⟨h, rfl⟩, rfl⟩
    · exact Or.inr h

/-! The claims. -/

/-- Claim C2: for an identified user whose id owns the fetched message,
like_message rejects with the user-visible flash and a redirect, leaves
the database unchanged, and the like-edge count of the message is
unchanged. -/
theorem like_own_message_rejected (st : DBState) (uid msg_id : Nat) (gu : User) (m : Message)
    (hg : g_user st (some uid) = some gu)
    (hm : st.messages.find? (fun x => x.id = msg_id) = some m)
    (hown : m.user_id = gu.id) :
    (like_message st (some uid) msg_id).db = st ∧
    (like_message st (some uid) msg_id).resp = Response.redirect ("/users/" ++ toString gu.id) ∧
    (like_message st (some uid) msg_id).flashes = [("danger", "you cannot like your own messages")] ∧
    (like_message st (some uid) msg_id).db.likes.count (gu.id, m.id) = st.likes.count (gu.id, m.id) := by
  simp [like_message, hg, hm, hown, do_authorize]

/-- Witness for C2: bob likes his own message mHello in stBase. -/
theorem like_own_message_rejected_witness :
    (like_message stBase (some 2) 10).db = stBase ∧
    (like_message stBase (some 2) 10).resp = Response.redirect ("/users/" ++ toString uBob.id) ∧
    (like_message stBase (some 2) 10).flashes = [("danger", "you cannot like your own messages")] ∧
    (like_message stBase (some 2) 10).db.likes.count (uBob.id, mHello.id) = stBase.likes.count (uBob.id, mHello.id) :=
  like_own_message_rejected stBase 2 10 uBob mHello rfl rfl rfl

/-- Counterexample to claim C4 as stated: with alice identified and bob an
existing user alice does not follow, stop_following raises an uncaught
ValueError (Python list.remove on an absent element) instead of silently
no-opping. -/
theorem unfollow_not_followed_cex :
    (stop_following stNoFollow (some 1) 2).resp = Response.fatal "ValueError" := by decide

/-- Claim C4 (amended): unfollowing a target the identified user does not
currently follow raises an uncaught ValueError; the follow edges are left
unchanged because the failing request never commits. -/
theorem unfollow_not_followed_raises (st : DBState) (uid fid : Nat) (gu target : User)
    (hg : g_user st (some uid) = some gu)
    (ht : st.users.find? (fun u => u.id = fid) = some target)
    (hnf : (gu.id, target.id) ∉ st.follows) :
    (stop_following st (some uid) fid).resp = Response.fatal "ValueError" ∧
    (stop_following st (some uid) fid).db = st := by
  simp [stop_following, hg, ht, hnf]

/-- Witness for the amended C4 at the stNoFollow state. -/
theorem unfollow_not_followed_raises_witness :
    (stop_following stNoFollow (some 1) 2).resp = Response.fatal "ValueError" ∧
    (stop_following stNoFollow (some 1) 2).db = stNoFollow :=
  unfollow_not_followed_raises stNoFollow 1 2 uAlice uBob rfl rfl (by decide)

/-- Claim C5 (the code as written): for anonymous invocations of follow,
unfollow, like, post message and delete message, do_authorize flashes and
builds a redirect that every caller discards, so each handler continues
with g.user = None and raises an uncaught AttributeError — a propagating
fault, not a recoverable failure.  The prior state is indeed unchanged. -/
theorem anonymous_actions_uncaught_fault :
    ((add_follow stBase none 2).resp = Response.fatal "AttributeError" ∧
      (add_follow stBase none 2).db = stBase ∧
      (add_follow stBase none 2).flashes = [("danger", "Access unauthorized.")]) ∧
    (stop_following stBase none 2).resp = Response.fatal "AttributeError" ∧
    (like_message stBase none 10).resp = Response.fatal "AttributeError" ∧
    (messages_add stBase none true "hi" 99 7).resp = Response.fatal "AttributeError" ∧
    (messages_destroy stBase none 10).resp = Response.fatal "AttributeError" := by
  decide

/-- Counterexample to claim C8 as stated: alice already follows bob in
stBase, and a repeated add_follow leaves two copies of the edge (1, 2) in
the persisted state. -/
theorem follow_duplicate_edges_cex :
    ((add_follow stBase (some 1) 2).db.follows.count (1, 2)) = 2 := by decide

/-- Claim C8 (amended): add_follow appends the edge unconditionally, so
every repeated call increments the edge count for the ordered pair —
duplicate edges accumulate and no at-most-one invariant holds. -/
theorem follow_appends_unconditionally (st : DBState) (uid fid : Nat) (gu target : User)
    (hg : g_user st (some uid) = some gu)
    (ht : st.users.find? (fun u => u.id = fid) = some target) :
    (add_follow st (some uid) fid).db.follows.count (gu.id, target.id)
      = st.follows.count (gu.id, target.id) + 1 ∧
    (gu.id, target.id) ∈ (add_follow st (some uid) fid).db.follows := by
  simp [add_follow, hg, ht, List.count_append]

/-- Witness for the amended C8 at the stBase state. -/
theorem follow_appends_unconditionally_witness :
    (add_follow stBase (some 1) 2).db.follows.count (uAlice.id, uBob.id)
      = stBase.follows.count (uAlice.id, uBob.id) + 1 ∧
    (uAlice.id, uBob.id) ∈ (add_follow stBase (some 1) 2).db.follows :=
  follow_appends_unconditionally stBase 1 2 uAlice uBob rfl rfl

/-- Counterexample to claim C9 as stated, at two concrete instances of
"for any users A and B".  First, with A = B = alice: follow(A, A) flips
is_following(B, A) from false to true, so the reverse query is not
unaffected.  Second, with a duplicated edge (reachable by repeated
add_follow): one stop_following removes only the first copy, so
is_following(A, B) stays true after unfollow. -/
theorem follow_frame_cex :
    (is_following stSolo 1 1 = false ∧
      is_following (add_follow stSolo (some 1) 1).db 1 1 = true) ∧
    is_following (stop_following stDupFollow (some 1) 2).db 1 2 = true := by
  decide

/-- Claim C9 (amended): for distinct identified users, follow(A, B) makes
is_following(A, B) true and leaves is_following(B, A) unchanged; and when
at most one (A, B) edge is present, unfollow(A, B) makes
is_following(A, B) false. -/
theorem follow_unfollow_frame (st : DBState) (uid fid : Nat) (gu target : User)
    (hg : g_user st (some uid) = some gu)
    (ht : st.users.find? (fun u => u.id = fid) = some target)
    (hne : gu.id ≠ target.id) :
    is_following (add_follow st (some uid) fid).db gu.id target.id = true ∧
    is_following (add_follow st (some uid) fid).db target.id gu.id
      = is_following st target.id gu.id ∧
    (st.follows.count (gu.id, target.id) ≤ 1 →
      is_following (stop_following st (some uid) fid).db gu.id target.id = false) := by
  have hne2 : (target.id, gu.id) ≠ (gu.id, target.id) := by
    intro e
    exact hne (congrArg Prod.fst e).symm
  refine ⟨?_, ?_, ?_⟩
  · simp [add_follow, hg, ht, is_following]
  · simp only [add_follow, hg, ht, is_following]
    exact decide_eq_decide.mpr (by simp [hne2])
  · intro hcnt
    by_cases hmem : (gu.id, target.id) ∈ st.follows
    · simp only [stop_following, hg, ht, if_pos hmem, is_following]
      exact decide_eq_false (not_mem_removeFirst st.follows _ hcnt)
    · simp only [stop_following, hg, ht, if_neg hmem, is_following]
      exact decide_eq_false hmem

/-- Witness for the amended C9: alice follows bob from stNoFollow, and an
unfollow from stBase (exactly one edge) clears the relationship. -/
theorem follow_unfollow_frame_witness :
    is_following (add_follow stNoFollow (some 1) 2).db uAlice.id uBob.id = true ∧
    is_following (add_follow stNoFollow (some 1) 2).db uBob.id uAlice.id
      = is_following stNoFollow uBob.id uAlice.id ∧
    (stNoFollow.follows.count (uAlice.id, uBob.id) ≤ 1 →
      is_following (stop_following stNoFollow (some 1) 2).db uAlice.id uBob.id = false) :=
  follow_unfollow_frame stNoFollow 1 2 uAlice uBob rfl rfl (by decide)

/-- Claim C3: for an identified user and a message of another author,
like_message toggles the like edge — removes it when present, adds it when
absent — two successive identical calls restore the membership state, and
from a state with no edge the first call gives edge count one and the
second gives count zero. -/
theorem like_toggles (st : DBState) (uid msg_id : Nat) (gu : User) (m : Message)
    (hg : g_user st (some uid) = some gu)
    (hm : st.messages.find? (fun x => x.id = msg_id) = some m)
    (hnot : m.user_id ≠ gu.id) :
    (((gu.id, m.id) ∈ st.likes →
        (gu.id, m.id) ∉ (like_message st (some uid) msg_id).db.likes) ∧
      ((gu.id, m.id) ∉ st.likes →
        (gu.id, m.id) ∈ (like_message st (some uid) msg_id).db.likes)) ∧
    ((gu.id, m.id) ∈ (like_message (like_message st (some uid) msg_id).db (some uid) msg_id).db.likes
      ↔ (gu.id, m.id) ∈ st.likes) ∧
    (st.likes.count (gu.id, m.id) = 0 →
      (like_message st (some uid) msg_id).db.likes.count (gu.id, m.id) = 1 ∧
      (like_message (like_message st (some uid) msg_id).db (some uid) msg_id).db.likes.count (gu.id, m.id) = 0) := by
  by_cases hmem : (gu.id, m.id) ∈ st.likes
  · have hdb1 : (like_message st (some uid) msg_id).db
        = { st with likes := st.likes.filter (fun e => e ≠ (gu.id, m.id)) } := by
      simp [like_message, hg, hm, hnot, hmem]
    have hnm1 : (gu.id, m.id) ∉ (like_message st (some uid) msg_id).db.likes := by
      rw [hdb1]
      exact not_mem_filter_ne st.likes _
    have hdb2 : (like_message (like_message st (some uid) msg_id).db (some uid) msg_id).db
        = { (like_message st (some uid) msg_id).db with
            likes := (like_message st (some uid) msg_id).db.likes ++ [(gu.id, m.id)] } := by
      rw [hdb1] at hnm1 ⊢
      simp only [like_message, g_user] at hg ⊢
      simp [hg, hm, hnot, hnm1]
    refine ⟨⟨fun _ => hnm1, fun h => absurd hmem h⟩, ?_, ?_⟩
    · rw [hdb2]
      simp [hmem]
    · intro h0
      exact absurd hmem (List.count_eq_zero.mp h0)
  · have hdb1 : (like_message st (some uid) msg_id).db
        = { st with likes := st.likes ++ [(gu.id, m.id)] } := by
      simp [like_message, hg, hm, hnot, hmem]
    have hm1 : (gu.id, m.id) ∈ (like_message st (some uid) msg_id).db.likes := by
      rw [hdb1]
      simp
    have hdb2 : (like_message (like_message st (some uid) msg_id).db (some uid) msg_id).db
        = { (like_message st (some uid) msg_id).db with
            likes := (like_message st (some uid) msg_id).db.likes.filter (fun e => e ≠ (gu.id, m.id)) } := by
      rw [hdb1] at hm1 ⊢
      simp only [like_message, g_user] at hg ⊢
      simp [hg, hm, hnot, hm1]
    refine ⟨⟨fun h => absurd h hmem, fun _ => hm1⟩, ?_, ?_⟩
    · rw [hdb2, hdb1]
      constructor
      · intro h
        exact absurd h (not_mem_filter_ne _ _)
      · intro h
        exact absurd h hmem
    · intro h0
      constructor
      · rw [hdb1]
        simp [List.count_append, h0]
      · rw [hdb2, hdb1]
        exact count_filter_ne _ _

/-- Witness for C3: alice likes and unlikes bob's message mHello starting
from stBase, where no like edge exists. -/
theorem like_toggles_witness :
    (((uAlice.id, mHello.id) ∈ stBase.likes →
        (uAlice.id, mHello.id) ∉ (like_message stBase (some 1) 10).db.likes) ∧
      ((uAlice.id, mHello.id) ∉ stBase.likes →
        (uAlice.id, mHello.id) ∈ (like_message stBase (some 1) 10).db.likes)) ∧
    ((uAlice.id, mHello.id) ∈ (like_message (like_message stBase (some 1) 10).db (some 1) 10).db.likes
      ↔ (uAlice.id, mHello.id) ∈ stBase.likes) ∧
    (stBase.likes.count (uAlice.id, mHello.id) = 0 →
      (like_message stBase (some 1) 10).db.likes.count (uAlice.id, mHello.id) = 1 ∧
      (like_message (like_message stBase (some 1) 10).db (some 1) 10).db.likes.count (uAlice.id, mHello.id) = 0) :=
  like_toggles stBase 1 10 uAlice mHello rfl rfl (by decide)

/-- Claim C1: the anonymous homepage carries no timeline; for an
identified viewer the timeline is sorted by timestamp descending, has at
most 100 entries, contains only stored messages authored by the viewer or
by someone the viewer follows, and — whenever at most 100 messages
qualify — contains every qualifying message. -/
theorem homepage_timeline (st : DBState) :
    homepage st none = none ∧
    (∀ uid gu tl, g_user st (some uid) = some gu → homepage st (some uid) = some tl →
      List.Sorted tsDesc tl ∧
      tl.length ≤ 100 ∧
      (∀ m ∈ tl, m ∈ st.messages ∧ (m.user_id = gu.id ∨ (gu.id, m.user_id) ∈ st.follows)) ∧
      ((st.messages.filter (fun m => m.user_id ∈ followingIds st gu.id)).length ≤ 100 →
        ∀ m ∈ st.messages, m.user_id = gu.id ∨ (gu.id, m.user_id) ∈ st.follows → m ∈ tl)) := by
  constructor
  · rfl
  · intro uid gu tl hg htl
    simp only [homepage, hg] at htl
    rw [Option.some_inj] at htl
    subst htl
    refine ⟨?_, ?_, ?_, ?_⟩
    · have hs : List.Pairwise tsDesc
          ((st.messages.filter (fun m => m.user_id ∈ followingIds st gu.id)).insertionSort tsDesc) :=
        List.sorted_insertionSort tsDesc _
      exact hs.sublist (List.take_sublist 100 _)
    · rw [List.length_take]
      exact Nat.min_le_left _ _
    · intro m hm
      have hm2 : m ∈ (st.messages.filter (fun m => m.user_id ∈ followingIds st gu.id)).insertionSort tsDesc :=
        (List.take_sublist 100 _).subset hm
      rw [List.mem_insertionSort] at hm2
      obtain ⟨hmem, hpred⟩ := List.mem_filter.mp hm2
      exact ⟨hmem, ((mem_followingIds st gu.id m.user_id).mp (of_decide_eq_true hpred)).symm⟩
    · intro h100 m hm hpred
      have hcand : m ∈ st.messages.filter (fun m => m.user_id ∈ followingIds st gu.id) :=
        List.mem_filter.mpr
          ⟨hm, decide_eq_true ((mem_followingIds st gu.id m.user_id).mpr hpred.symm)⟩
      rw [List.take_of_length_le (by rwa [List.length_insertionSort])]
      rwa [List.mem_insertionSort]

/-- Witness for C1: alice in stBase follows bob; her timeline is bob's
mHello and her own mLater in descending timestamp order, and mOther by an
unfollowed author is excluded. -/
theorem homepage_timeline_witness :
    List.Sorted tsDesc [mLater, mHello] ∧
    ([mLater, mHello] : List Message).length ≤ 100 ∧
    (∀ m ∈ [mLater, mHello], m ∈ stBase.messages ∧
      (m.user_id = uAlice.id ∨ (uAlice.id, m.user_id) ∈ stBase.follows)) ∧
    ((stBase.messages.filter (fun m => m.user_id ∈ followingIds stBase uAlice.id)).length ≤ 100 →
      ∀ m ∈ stBase.messages, m.user_id = uAlice.id ∨ (uAlice.id, m.user_id) ∈ stBase.follows →
        m ∈ [mLater, mHello]) :=
  (homepage_timeline stBase).2 1 uAlice [mLater, mHello] rfl rfl

/-- Claim C6: authenticate yields the found user exactly when the username
lookup succeeds and the password verifies against the stored digest; an
absent username and a failing verification both yield None — the same
result shape — and the function is total, so bad credentials never raise. -/
theorem authenticate_correct (vf : Verify) (users : List User) (username password : String) :
    (∀ u, authenticate vf users username password = some u ↔
      users.find? (fun v => v.username = username) = some u ∧ vf password u.password = true) ∧
    (users.find? (fun v => v.username = username) = none →
      authenticate vf users username password = none) ∧
    (∀ u, users.find? (fun v => v.username = username) = some u →
      vf password u.password = false →
      authenticate vf users username password = none) := by
  refine ⟨?_, ?_, ?_⟩
  · intro u
    unfold authenticate
    cases hf : users.find? (fun v => v.username = username) with
    | none => simp
    | some w =>
      by_cases hv : vf password w.password = true
      · simp only [hv, if_true, Option.some_inj]
        constructor
        · rintro rfl
          exact ⟨rfl, hv⟩
        · rintro ⟨hw, _⟩
          exact hw
      · simp only [Bool.not_eq_true] at hv
        simp only [hv, Bool.false_eq_true, if_false, Option.some_inj]
        constructor
        · rintro h
          cases h
        · rintro ⟨rfl, hvu⟩
          rw [hv] at hvu
          cases hvu
  · intro hf
    simp [authenticate, hf]
  · intro u hf hv
    simp [authenticate, hf, hv]

/-- Witness for C6: with the demo verifier, a wrong password for an
existing username yields None. -/
theorem authenticate_correct_witness :
    authenticate vfDemo [uAliceH, uBob] "alice" "bad" = none :=
  (authenticate_correct vfDemo [uAliceH, uBob] "alice" "bad").2.2 uAliceH rfl rfl

/-- Claim C7: a signup whose username or email duplicates an existing row
fails at commit with the distinct duplicate-identity error, no new User
row persists, and the route flashes a friendly message and re-renders the
signup form instead of crashing. -/
theorem signup_duplicate_rejected (st : DBState) (u v : User)
    (hv : v ∈ st.users) (hdup : v.username = u.username ∨ v.email = u.email) :
    commit_new_user st u = Except.error () ∧
    (signup_route st u).db = st ∧
    (signup_route st u).resp = Response.render "users/signup.html" ∧
    (signup_route st u).flashes = [("danger", "Username already taken")] := by
  have hany : st.users.any (fun w => w.username = u.username || w.email = u.email) = true := by
    rw [List.any_eq_true]
    refine ⟨v, hv, ?_⟩
    rcases hdup with h | h <;> simp [h]
  refine ⟨?_, ?_, ?_, ?_⟩ <;> simp [signup_route, commit_new_user, hany]

/-- Witness for C7: carol signs up with the email already used by alice. -/
theorem signup_duplicate_rejected_witness :
    commit_new_user stAuth uDupEmail = Except.error () ∧
    (signup_route stAuth uDupEmail).db = stAuth ∧
    (signup_route stAuth uDupEmail).resp = Response.render "users/signup.html" ∧
    (signup_route stAuth uDupEmail).flashes = [("danger", "Username already taken")] :=
  signup_duplicate_rejected stAuth uDupEmail uAliceH (by decide) (by decide)

/-- Claim C10: for an identified user submitting a valid edit form, the
profile row is rewritten and committed exactly when the form password
re-authenticates against the current username; on failure the database is
unchanged, the unauthorized flash is shown and the edit form re-renders. -/
theorem profile_update_requires_reauth (vf : Verify) (st : DBState) (uid : Nat)
    (prof : User) (f : EditForm)
    (hg : g_user st (some uid) = some prof) :
    (authenticate vf st.users prof.username f.password = none →
      (profile_route vf st (some uid) true f).db = st ∧
      (profile_route vf st (some uid) true f).resp = Response.render "/users/edit.html" ∧
      (profile_route vf st (some uid) true f).flashes = [("danger", "You are unauthorized")]) ∧
    (authenticate vf st.users prof.username f.password ≠ none →
      (profile_route vf st (some uid) true f).db.users
        = st.users.map (fun u => if u.id = prof.id then updateUser u f else u) ∧
      (profile_route vf st (some uid) true f).resp = Response.redirect ("/users/" ++ toString prof.id)) := by
  have hg2 : st.users.find? (fun u => u.id = uid) = some prof := by
    simpa [g_user] using hg
  have hp := List.find?_some hg2
  simp only [decide_eq_true_eq] at hp
  have hid : prof.id = uid := hp
  have hfind2 : st.users.find? (fun u => u.id = prof.id) = some prof := by
    rw [hid]
    exact hg2
  constructor
  · intro hauth
    simp [profile_route, hg, hfind2, hauth, do_authorize]
  · intro hauth
    have hs : (authenticate vf st.users prof.username f.password).isSome = true :=
      Option.isSome_iff_ne_none.mpr hauth
    simp [profile_route, hg, hfind2, hs, do_authorize]

/-- Witness for C10: alice submits the edit form with a wrong password
under the demo verifier; nothing changes and the unauthorized flash shows. -/
theorem profile_update_requires_reauth_witness :
    (profile_route vfDemo stAuth (some 1) true (fEdit "bad")).db = stAuth ∧
    (profile_route vfDemo stAuth (some 1) true (fEdit "bad")).resp = Response.render "/users/edit.html" ∧
    (profile_route vfDemo stAuth (some 1) true (fEdit "bad")).flashes = [("danger", "You are unauthorized")] :=
  (profile_update_requires_reauth vfDemo stAuth 1 uAliceH (fEdit "bad") rfl).1 rfl

end Warbler
